import Mathlib

/-!
Verification development for the LMS real-time analytics backend.

Part 1 embeds `app/services/websocket_manager.py` (the connection registry):
its state is three dictionaries, modelled here as an association list for
`active_connections` (whose iteration order matters for broadcasts) and as
functions into `Option` for the two subscription indexes.  Channel member
sets are modelled as duplicate-free lists; `set.add` is `List.insert` and
`set.discard` is `List.erase`.

Part 2 embeds `app/services/realtime_analytics.py` (event ingestion,
engagement tracker, aggregation, stale-session cleanup, predictive alerts,
timeframe parsing).  Timestamps are `Nat` seconds; Python floats are `Rat`.
-/

namespace LMS

/-- Replace the value under key `u` in an association list, or append a new
binding; mirrors Python dict assignment (in-place update keeps position,
fresh keys go to the end of the iteration order). -/
def alistInsert (l : List (String × Nat)) (u : String) (v : Nat) : List (String × Nat) :=
  if (l.lookup u).isSome then l.map (fun p => if p.1 = u then (u, v) else p)
  else l ++ [(u, v)]

/-- Pointwise update of a map modelled as a function into `Option`. -/
def updMap (m : String → Option (List String)) (k : String) (v : Option (List String)) :
    String → Option (List String) :=
  fun x => if x = k then v else m x

/-- State of `WebSocketManager` (websocket_manager.py lines 18-26):
`active_connections : user_id -> WebSocket` (transport handles as `Nat` ids),
`channel_subscriptions : channel -> set of user_ids`,
`user_subscriptions : user_id -> set of channels`. -/
structure WSState where
  active_connections : List (String × Nat)
  channel_subscriptions : String → Option (List String)
  user_subscriptions : String → Option (List String)

/-- The registry of a freshly constructed `WebSocketManager`: all three
dictionaries empty. -/
def initWS : WSState :=
  { active_connections := [],
    channel_subscriptions := fun _ => none,
    user_subscriptions := fun _ => none }

/-- Subscriber set of a channel (empty when the channel has no entry). -/
def chanSet (s : WSState) (c : String) : List String :=
  (s.channel_subscriptions c).getD []

/-- Channel set of a user (empty when the user has no entry). -/
def userSet (s : WSState) (u : String) : List String :=
  (s.user_subscriptions u).getD []

/-- `self.channel_subscriptions[channel].discard(user_id)` followed by
deleting the channel entry once its subscriber set is empty
(websocket_manager.py lines 50-53 and 138-141); no-op when the channel has
no entry. -/
def discardFromChannel (s : WSState) (u c : String) : WSState :=
  match s.channel_subscriptions c with
  | none => s
  | some l =>
      let l2 := l.erase u
      { s with channel_subscriptions := updMap s.channel_subscriptions c (if l2 = [] then none else some l2) }

/-- `WebSocketManager.disconnect` (lines 44-58): if connected, remove the
user from every channel it subscribes to (deleting emptied channels), drop
its subscription entry, and drop the connection. -/
def disconnect (s : WSState) (u : String) : WSState :=
  if (s.active_connections.lookup u).isSome then
    let s1 :=
      match s.user_subscriptions u with
      | none => s
      | some chans =>
          let s2 := chans.foldl (fun acc c => discardFromChannel acc u c) s
          { s2 with user_subscriptions := updMap s2.user_subscriptions u none }
    { s1 with active_connections := s1.active_connections.filter (fun p => p.1 ≠ u) }
  else s

/-- `WebSocketManager.send_to_user` (lines 60-69): attempts a send only when
the user is connected; a transport failure (`ok = false`) is caught and
converted into `disconnect`, never propagated. -/
def send_to_user (s : WSState) (u : String) (ok : Bool) : WSState :=
  if (s.active_connections.lookup u).isSome then
    if ok then s else disconnect s u
  else s

/-- State effect of `WebSocketManager.connect` after a successful
`websocket.accept()` (lines 28-42): register the transport as the sole
connection, reset the user's subscription set to empty, then send the
welcome message (whose failure triggers an implicit disconnect). -/
def connect (s : WSState) (ws : Nat) (u : String) (sendOk : Bool) : WSState :=
  let s1 := { s with
      active_connections := alistInsert s.active_connections u ws,
      user_subscriptions := updMap s.user_subscriptions u (some []) }
  send_to_user s1 u sendOk

/-- Loop body of `subscribe_to_channels` (lines 114-120): ensure the channel
entry exists, add the user to it, add the channel to the user's set. -/
def addToChannel (s : WSState) (u c : String) : WSState :=
  let s1 := { s with channel_subscriptions := updMap s.channel_subscriptions c (some ((chanSet s c).insert u)) }
  { s1 with user_subscriptions := updMap s1.user_subscriptions u (some ((userSet s1 u).insert c)) }

/-- `WebSocketManager.subscribe_to_channels` (lines 109-129): ensure the
user's subscription entry exists, add each channel pairwise to both
indexes, then send a confirmation (failure triggers implicit disconnect). -/
def subscribe_to_channels (s : WSState) (u : String) (chans : List String) (sendOk : Bool) :
    WSState :=
  let s0 := if (s.user_subscriptions u).isSome then s
            else { s with user_subscriptions := updMap s.user_subscriptions u (some []) }
  send_to_user (chans.foldl (fun acc c => addToChannel acc u c) s0) u sendOk

/-- Loop body of `unsubscribe_from_channels` (lines 136-143): remove the
user from the channel entry (deleting it when emptied) and the channel from
the user's set. -/
def removeChannelPair (s : WSState) (u c : String) : WSState :=
  let s1 := discardFromChannel s u c
  { s1 with user_subscriptions := updMap s1.user_subscriptions u ((s1.user_subscriptions u).map (fun l => l.erase c)) }

/-- `WebSocketManager.unsubscribe_from_channels` (lines 131-152): no-op for
users without a subscription entry; otherwise remove each channel pairwise
and send a confirmation (failure triggers implicit disconnect). -/
def unsubscribe_from_channels (s : WSState) (u : String) (chans : List String) (sendOk : Bool) :
    WSState :=
  if (s.user_subscriptions u).isSome then
    send_to_user (chans.foldl (fun acc c => removeChannelPair acc u c) s) u sendOk
  else s

/-- `WebSocketManager.broadcast_to_all` (lines 71-87): iterate a copy of the
connection list, collect the users whose send failed (`ok u = false`), and
disconnect them after the loop. -/
def broadcast_to_all (s : WSState) (ok : String → Bool) : WSState :=
  if s.active_connections = [] then s
  else
    let failed := (s.active_connections.map (fun p => p.1)).filter (fun u => !(ok u))
    failed.foldl (fun acc u => disconnect acc u) s

/-- `WebSocketManager.broadcast_to_channel` (lines 89-107): send to every
subscribed and currently connected user, collect failures, and disconnect
the failed users after the loop. -/
def broadcast_to_channel (s : WSState) (c : String) (ok : String → Bool) : WSState :=
  match s.channel_subscriptions c with
  | none => s
  | some users =>
      let failed := users.filter
        (fun u => (s.active_connections.lookup u).isSome && !(ok u))
      failed.foldl (fun acc u => disconnect acc u) s

/-- One registry operation for the C1 state-machine runs.  `acceptOk` models
whether `websocket.accept()` succeeds inside `connect` (a failed accept
raises before any state is touched); each `sendOk` models the transport
send inside the operation. -/
inductive WSOp where
  | connect (ws : Nat) (u : String) (acceptOk sendOk : Bool)
  | disconnect (u : String)
  | subscribe (u : String) (chans : List String) (sendOk : Bool)
  | unsubscribe (u : String) (chans : List String) (sendOk : Bool)

/-- State transition of one registry operation. -/
def applyOp (s : WSState) : WSOp → WSState
  | .connect ws u acceptOk sendOk =>
      if acceptOk then connect s ws u sendOk else s
  | .disconnect u => disconnect s u
  | .subscribe u chans sendOk => subscribe_to_channels s u chans sendOk
  | .unsubscribe u chans sendOk => unsubscribe_from_channels s u chans sendOk

/-- Run a sequence of registry operations. -/
def runOps (s : WSState) (ops : List WSOp) : WSState :=
  ops.foldl applyOp s

/-- The two subscription indexes are mutual inverses: a pair
`(channel, user)` is in the channel index iff it is in the user index. -/
def Mirrored (s : WSState) : Prop :=
  ∀ c u : String, u ∈ chanSet s c ↔ c ∈ userSet s u

/-- A channel whose subscriber set becomes empty is removed entirely: no
channel is ever bound to the empty set. -/
def NoEmptyChan (s : WSState) : Prop :=
  ∀ c : String, s.channel_subscriptions c ≠ some []

/-- The registry invariant claimed by the spec. -/
def RegInv (s : WSState) : Prop :=
  Mirrored s ∧ NoEmptyChan s

/-- Auxiliary invariant: all modelled sets are duplicate-free (Python sets
cannot hold duplicates). -/
def GoodSets (s : WSState) : Prop :=
  (∀ c : String, (chanSet s c).Nodup) ∧ (∀ u : String, (userSet s u).Nodup)

/-- Value form of a channel entry after a discard-and-delete-when-empty
step: an absent entry stays absent and an entry emptied by the erase is
deleted. -/
def delUser (u : String) : Option (List String) → Option (List String)
  | none => none
  | some l => if l.erase u = [] then none else some (l.erase u)

/-- The registry invariant together with the auxiliary duplicate-freedom
facts needed to push it through erases. -/
def FullInv (s : WSState) : Prop :=
  Mirrored s ∧ NoEmptyChan s ∧ GoodSets s

/-- Safety condition on one operation used by the amended C1 invariant:
`connect` must only be issued for a user that currently has no channel
subscriptions (the source resets `user_subscriptions[user_id]` to an empty
set without cleaning the channel index). -/
def opSafe (s : WSState) : WSOp → Prop
  | .connect _ u _ _ => userSet s u = []
  | _ => True

/-- A trace is safe when every operation satisfies `opSafe` in the state it
is applied to. -/
def SafeTrace : WSState → List WSOp → Prop
  | _, [] => True
  | s, op :: ops => opSafe s op ∧ SafeTrace (applyOp s op) ops

/-- One registry operation for the exception analysis (claim C4); the
transport oracles say which sends succeed.  `acceptOk` is the outcome of
`websocket.accept()` at the top of `connect`. -/
inductive RegistryOp where
  | connect (ws : Nat) (u : String) (acceptOk sendOk : Bool)
  | disconnect (u : String)
  | send (u : String) (sendOk : Bool)
  | bcastAll (ok : String → Bool)
  | bcastChannel (c : String) (ok : String → Bool)
  | subscribe (u : String) (chans : List String) (sendOk : Bool)
  | unsubscribe (u : String) (chans : List String) (sendOk : Bool)

/-- Exception behaviour of each registry operation.  The body of every
operation except `connect` either performs pure dictionary updates behind
membership guards or wraps each transport send in `try/except`, so those
operations always return normally; `connect` starts with an unguarded
`await websocket.accept()` (websocket_manager.py line 30), whose failure
propagates to the caller before any state is touched. -/
def applyRegistryOp (s : WSState) : RegistryOp → Except Unit WSState
  | .connect ws u acceptOk sendOk =>
      if acceptOk then .ok (connect s ws u sendOk) else .error ()
  | .disconnect u => .ok (disconnect s u)
  | .send u sendOk => .ok (send_to_user s u sendOk)
  | .bcastAll ok => .ok (broadcast_to_all s ok)
  | .bcastChannel c ok => .ok (broadcast_to_channel s c ok)
  | .subscribe u chans sendOk => .ok (subscribe_to_channels s u chans sendOk)
  | .unsubscribe u chans sendOk => .ok (unsubscribe_from_channels s u chans sendOk)

/-- Operations whose modelled `accept` step does not fail (all operations
other than `connect` trivially qualify). -/
def acceptSucceeds : RegistryOp → Prop
  | .connect _ _ acceptOk _ => acceptOk = true
  | _ => True

/-! ## Part 2: realtime_analytics.py -/

/-- A raw event payload: the fields the service reads are `action` and the
optional `duration` (`"duration" in event_data` / `event_data["duration"]`). -/
structure Event where
  action : String
  duration : Option Int
deriving DecidableEq

/-- A buffered event, `{"timestamp": timestamp, "event": event_data}`
(realtime_analytics.py lines 65-68). -/
structure TimedEvent where
  timestamp : Nat
  event : Event
deriving DecidableEq

/-- One entry of `self.engagement_tracker` (lines 342-347). -/
structure EngTracker where
  session_start : Nat
  page_views : Nat
  interactions : Nat
  time_spent : Int
deriving DecidableEq

/-- In-memory state of `RealTimeAnalyticsService` (lines 30-34):
`metrics_buffer : user_id -> deque of buffered events`,
`active_sessions : user_id -> last event timestamp`,
`engagement_tracker : user_id -> tracker entry`. -/
structure RTState where
  metrics_buffer : String → List TimedEvent
  active_sessions : String → Option Nat
  engagement_tracker : String → Option EngTracker

/-- The state of a freshly constructed service: all maps empty. -/
def initRT : RTState :=
  { metrics_buffer := fun _ => [],
    active_sessions := fun _ => none,
    engagement_tracker := fun _ => none }

/-- The interaction action set used by `_update_engagement_metrics`
(line 353). -/
def interactionActions : List String :=
  ["click", "scroll", "video_play", "quiz_attempt"]

/-- Lazily created tracker entry (lines 341-347): a fresh entry starts its
session at the current time with zeroed counters. -/
def ensure_tracker (t : Option EngTracker) (now : Nat) : EngTracker :=
  t.getD { session_start := now, page_views := 0, interactions := 0, time_spent := 0 }

/-- Event classification of `_update_engagement_metrics` (lines 351-354):
`page_view` increments the page-view counter, an action in
`interactionActions` increments the interaction counter, anything else
leaves both counters unchanged. -/
def classify_event (tr : EngTracker) (ev : Event) : EngTracker :=
  if ev.action = "page_view" then { tr with page_views := tr.page_views + 1 }
  else if ev.action ∈ interactionActions then { tr with interactions := tr.interactions + 1 }
  else tr

/-- Duration accumulation of `_update_engagement_metrics` (lines 356-357):
an event carrying a `duration` adds it to cumulative time spent. -/
def add_duration (tr : EngTracker) (ev : Event) : EngTracker :=
  match ev.duration with
  | some d => { tr with time_spent := tr.time_spent + d }
  | none => tr

/-- `RealTimeAnalyticsService._update_engagement_metrics` (lines 339-357). -/
def update_engagement_metrics (s : RTState) (u : String) (ev : Event) (now : Nat) : RTState :=
  { s with engagement_tracker := fun x =>
      if x = u then some (add_duration (classify_event (ensure_tracker (s.engagement_tracker u) now) ev) ev)
      else s.engagement_tracker x }

/-- State left behind when the duration accumulation inside
`_update_engagement_metrics` raises: the entry has already been created and
classified, but the duration was not added. -/
def engagement_before_duration (s : RTState) (u : String) (ev : Event) (now : Nat) : RTState :=
  { s with engagement_tracker := fun x =>
      if x = u then some (classify_event (ensure_tracker (s.engagement_tracker u) now) ev)
      else s.engagement_tracker x }

/-- Body of `track_live_event` (lines 49-77) without the surrounding
`try/except`.  Returns the state after the statements that executed, a flag
recording whether the broadcast of step 6 was attempted, and a flag
recording whether an exception was raised inside the body.  `cacheOk` is
the Redis `setex` of step 2 (raising before any in-memory mutation),
`engOk` the duration accumulation inside the tracker update, `bcastOk` the
broadcast. -/
def track_body (s : RTState) (u : String) (ev : Event) (now : Nat)
    (cacheOk engOk bcastOk : Bool) : RTState × Bool × Bool :=
  if cacheOk = false then (s, false, true)
  else
    let s1 := { s with metrics_buffer := fun x =>
        if x = u then s.metrics_buffer u ++ [TimedEvent.mk now ev]
        else s.metrics_buffer x }
    let s2 := { s1 with active_sessions := fun x => if x = u then some now else s1.active_sessions x }
    if engOk = false then (engagement_before_duration s2 u ev now, false, true)
    else (update_engagement_metrics s2 u ev now, true, bcastOk = false)

/-- `RealTimeAnalyticsService.track_live_event` (lines 47-80): the whole
body runs under `try/except Exception`, so any exception is caught and
logged and the call returns normally with the mutations made so far.
The result is the new state and whether the broadcast was attempted. -/
def track_live_event (s : RTState) (u : String) (ev : Event) (now : Nat)
    (cacheOk engOk bcastOk : Bool) : RTState × Bool :=
  let r := track_body s u ev now cacheOk engOk bcastOk
  (r.1, r.2.1)

/-- Caller-visible outcome of `track_live_event`: the `except Exception`
clause at lines 79-80 covers the entire body, so a raise inside the body is
always converted into a normal return. -/
def track_live_event_call (s : RTState) (u : String) (ev : Event) (now : Nat)
    (cacheOk engOk bcastOk : Bool) : Except Unit (RTState × Bool) :=
  match track_body s u ev now cacheOk engOk bcastOk with
  | (s', attempted, _raised) => .ok (s', attempted)

/-- One iteration of the `_cleanup_stale_sessions` loop body (lines
322-331): every active-session marker older than the cutoff is removed,
and the same user's engagement-tracker entry is removed when present. -/
def cleanup_stale_sessions (s : RTState) (cutoff : Nat) : RTState :=
  { s with
    active_sessions := fun u =>
      match s.active_sessions u with
      | some t => if t < cutoff then none else some t
      | none => none,
    engagement_tracker := fun u =>
      match s.active_sessions u with
      | some t => if t < cutoff then none else s.engagement_tracker u
      | none => s.engagement_tracker u }

/-- Engagement-tracker entries only exist for users with an active-session
marker. -/
def EngSubInv (s : RTState) : Prop :=
  ∀ u : String, (s.engagement_tracker u).isSome = true → (s.active_sessions u).isSome = true

/-- One drain cycle of `_process_realtime_metrics` (lines 279-282) for one
user's buffer.  The loop snapshots the shared deque with `list(events)`,
awaits the aggregate write, and then calls `events.clear()`; `concurrent`
are the events appended by `track_live_event` during that suspension, and
the clear wipes them together with the snapshotted ones.  When the buffer
is empty the branch is skipped and concurrent appends simply accumulate.
The result is (events handed to the aggregate, buffer afterwards). -/
def drain_cycle (buffer concurrent : List TimedEvent) : List TimedEvent × List TimedEvent :=
  if buffer = [] then ([], buffer ++ concurrent)
  else (buffer, [])

/-- The interaction action list used by `_aggregate_user_metrics`
(line 426). -/
def aggregateInteractionActions : List String :=
  ["click", "scroll", "video_play"]

/-- Page-view test of `_aggregate_user_metrics` (line 425). -/
def agg_is_page_view (ev : Event) : Bool :=
  ev.action = "page_view"

/-- Interaction test of `_aggregate_user_metrics` (line 426). -/
def agg_is_interaction (ev : Event) : Bool :=
  ev.action ∈ aggregateInteractionActions

/-- The hourly aggregate written to the cache (lines 420-427). -/
structure Aggregated where
  user_id : String
  event_count : Nat
  total_duration : Int
  page_views : Nat
  interactions : Nat
deriving DecidableEq

/-- `RealTimeAnalyticsService._aggregate_user_metrics` (lines 414-432):
counts, summed `duration` defaulting to 0, page views and interactions over
the drained snapshot of a user's buffer. -/
def aggregate_user_metrics (u : String) (events : List TimedEvent) : Aggregated :=
  { user_id := u,
    event_count := events.length,
    total_duration := (events.map (fun e => e.event.duration.getD 0)).sum,
    page_views := (events.filter (fun e => agg_is_page_view e.event)).length,
    interactions := (events.filter (fun e => agg_is_interaction e.event)).length }

/-- The dictionary returned by `_get_student_engagement_summary` for a
tracked student (lines 404-410). -/
structure EngagementSummary where
  session_duration : Nat
  page_views : Nat
  interactions : Nat
  total_time_spent : Int
  engagement_rate : Rat
deriving DecidableEq

/-- `RealTimeAnalyticsService._get_student_engagement_summary` (lines
398-412): summary of the tracker entry, or the empty dictionary (`none`)
for an unknown student. -/
def get_student_engagement_summary (s : RTState) (student_id : String) (now : Nat) :
    Option EngagementSummary :=
  match s.engagement_tracker student_id with
  | some tr =>
      some { session_duration := now - tr.session_start,
             page_views := tr.page_views,
             interactions := tr.interactions,
             total_time_spent := tr.time_spent,
             engagement_rate := ((tr.interactions : Rat) / (max tr.page_views 1 : Nat)) * 100 }
  | none => none

/-- Apply `_update_engagement_metrics` to a list of recorded events in
order. -/
def run_events (s : RTState) (u : String) (evs : List Event) (now : Nat) : RTState :=
  evs.foldl (fun acc ev => update_engagement_metrics acc u ev now) s

/-- Python `timeframe.endswith(c)` for a one-character suffix. -/
def strEndsWith (s : String) (c : Char) : Bool :=
  s.data.getLast? = some c

/-- Python `timeframe[:-1]`. -/
def strDropLast (s : String) : String :=
  String.mk s.data.dropLast

/-- Value of a decimal digit character. -/
def digitVal (c : Char) : Option Nat :=
  if c.isDigit then some (c.toNat - 48) else none

/-- Python `int(s)` on the non-negative decimal numerals the timeframe
claims use; `none` stands for the `ValueError` on non-numeric input. -/
def parseNat (s : String) : Option Nat :=
  if s.data = [] then none
  else s.data.foldl (fun acc c =>
    match acc, digitVal c with
    | some n, some d => some (n * 10 + d)
    | _, _ => none) (some 0)

/-- `RealTimeAnalyticsService._parse_timeframe` (realtime_analytics.py
lines 472-481): suffix `m` divides by 60 (Python true division), `h` is
identity, `d` multiplies by 24, anything else defaults to 1 hour. -/
def parse_timeframe_rt (timeframe : String) : Option Rat :=
  if strEndsWith timeframe 'm' then (parseNat (strDropLast timeframe)).map (fun n => (n : Rat) / 60)
  else if strEndsWith timeframe 'h' then (parseNat (strDropLast timeframe)).map (fun n => (n : Rat))
  else if strEndsWith timeframe 'd' then (parseNat (strDropLast timeframe)).map (fun n => (n : Rat) * 24)
  else some 1

/-- `AnalyticsService._parse_timeframe` (analytics_service.py lines
331-340): suffix `h` is identity, `d` multiplies by 24, `w` multiplies by
24 * 7, anything else defaults to 1 hour. -/
def parse_timeframe_svc (timeframe : String) : Option Rat :=
  if strEndsWith timeframe 'h' then (parseNat (strDropLast timeframe)).map (fun n => (n : Rat))
  else if strEndsWith timeframe 'd' then (parseNat (strDropLast timeframe)).map (fun n => (n : Rat) * 24)
  else if strEndsWith timeframe 'w' then (parseNat (strDropLast timeframe)).map (fun n => (n : Rat) * 24 * 7)
  else some 1

/-- A `user_activities` row as read by `get_predictive_alerts`. -/
structure Activity where
  user_id : String
  timestamp : Nat
deriving DecidableEq

/-- A `student_progress` row as read by `get_predictive_alerts`. -/
structure StudentProgress where
  user_id : String
  learning_path_id : String
  progress : Int
  started_at : Nat
deriving DecidableEq

/-- An alert emitted by `get_predictive_alerts` (lines 236-244 and
255-263), keeping the fields the claims mention. -/
inductive Alert where
  | engagement_drop (user_id : String) (risk_level : String) (risk_score : Rat)
      (last_activity : Nat) (activity_count : Nat)
  | low_progress (user_id : String) (learning_path_id : String) (risk_level : String)
      (progress : Int) (started_at : Nat)
deriving DecidableEq

/-- Whether an alert is a low-progress alert. -/
def Alert.isLowProgress : Alert → Bool
  | .low_progress _ _ _ _ _ => true
  | _ => false

/-- Activity rows of the last 3 days (`timestamp >= utcnow - 3 days`,
line 216 and 224). -/
def recent_activities (acts : List Activity) (now : Nat) : List Activity :=
  acts.filter (fun a => decide (now ≤ a.timestamp + 3 * 86400))

/-- `func.count(UserActivity.id)` for one user over a window. -/
def user_activity_count (w : List Activity) (u : String) : Nat :=
  (w.filter (fun a => decide (a.user_id = u))).length

/-- `func.max(UserActivity.timestamp)` for one user over a window. -/
def user_last_activity (w : List Activity) (u : String) : Nat :=
  ((w.filter (fun a => decide (a.user_id = u))).map (fun a => a.timestamp)).foldl max 0

/-- Risk score of the engagement-drop heuristic (lines 232-233):
`min(days_since_last_activity * 0.3 + (5 - activity_count) * 0.2, 1.0)`,
where `days_since_last_activity` is the floor number of whole days
(`timedelta.days`). -/
def risk_score (now last : Nat) (cnt : Nat) : Rat :=
  min ((((now - last) / 86400 : Nat) : Rat) * (3 / 10) + ((5 - (cnt : Int) : Int) : Rat) * (2 / 10)) 1

/-- The `group_by(user_id).having(count < 5)` query of
`get_predictive_alerts` (lines 219-227): users appearing in the window
with fewer than 5 recorded activities. -/
def declining_users (w : List Activity) : List String :=
  ((w.map (fun a => a.user_id)).dedup).filter (fun u => decide (user_activity_count w u < 5))

/-- The engagement-drop alert dictionary built at lines 236-244. -/
def engagement_alert (now : Nat) (w : List Activity) (u : String) : Alert :=
  Alert.engagement_drop u
    (if risk_score now (user_last_activity w u) (user_activity_count w u) > 8 / 10 then "high"
     else "medium")
    (risk_score now (user_last_activity w u) (user_activity_count w u))
    (user_last_activity w u) (user_activity_count w u)

/-- The low-progress alert dictionary built at lines 255-263. -/
def low_progress_alert (p : StudentProgress) : Alert :=
  Alert.low_progress p.user_id p.learning_path_id "medium" p.progress p.started_at

/-- The low-progress query of lines 247-252: `progress < 20` and
`started_at <= utcnow - 7 days`. -/
def qualifying_progress (progs : List StudentProgress) (now : Nat) : List StudentProgress :=
  progs.filter (fun p => decide (p.progress < 20 ∧ p.started_at + 7 * 86400 ≤ now))

/-- `RealTimeAnalyticsService.get_predictive_alerts` (lines 210-272): group
the last 3 days of activity by user, keep users with fewer than 5
activities, emit an engagement-drop alert when the risk score exceeds 0.6
(`high` above 0.8, else `medium`); then append one low-progress `medium`
alert for every progress row with `progress < 20` started at least 7 days
ago. -/
def get_predictive_alerts (acts : List Activity) (progs : List StudentProgress) (now : Nat) :
    List Alert :=
  (qualifying_progress progs now).foldl
    (fun alerts p => alerts ++ [low_progress_alert p])
    ((declining_users (recent_activities acts now)).foldl
      (fun alerts u =>
        if risk_score now (user_last_activity (recent_activities acts now) u)
            (user_activity_count (recent_activities acts now) u) > 6 / 10 then
          alerts ++ [engagement_alert now (recent_activities acts now) u]
        else alerts)
      [])

/-! ## Registry invariant lemmas (towards C1) -/

theorem chanSub_discard (s : WSState) (u c c' : String) :
    (discardFromChannel s u c).channel_subscriptions c' =
      if c' = c then delUser u (s.channel_subscriptions c) else s.channel_subscriptions c' := by
  cases h : s.channel_subscriptions c with
  | none =>
      simp only [discardFromChannel, h, delUser]
      split_ifs with hcc
      · subst hcc; exact h
      · rfl
  | some l =>
      simp only [discardFromChannel, h, delUser, updMap]

theorem userSubs_discard (s : WSState) (u c : String) :
    (discardFromChannel s u c).user_subscriptions = s.user_subscriptions := by
  cases h : s.channel_subscriptions c <;> simp [discardFromChannel, h]

theorem chanSet_discard (s : WSState) (u c c' : String) :
    chanSet (discardFromChannel s u c) c' =
      if c' = c then (chanSet s c).erase u else chanSet s c' := by
  rw [chanSet, chanSub_discard]
  split_ifs with hcc
  · cases h : s.channel_subscriptions c with
    | none => simp [delUser, chanSet, h]
    | some l =>
        by_cases he : l.erase u = [] <;> simp [delUser, h, he, chanSet]
  · rfl

theorem mem_chanSet_discard (s : WSState) (u c c' u' : String) (hnd : (chanSet s c).Nodup) :
    u' ∈ chanSet (discardFromChannel s u c) c' ↔
      u' ∈ chanSet s c' ∧ ¬(u' = u ∧ c' = c) := by
  rw [chanSet_discard]
  split_ifs with hcc
  · subst hcc
    rw [List.Nodup.mem_erase_iff hnd]
    tauto
  · tauto

theorem noEmpty_discard (s : WSState) (u c : String) (h : NoEmptyChan s) :
    NoEmptyChan (discardFromChannel s u c) := by
  intro c'
  rw [chanSub_discard]
  split_ifs with hcc
  · cases h2 : s.channel_subscriptions c with
    | none => simp [delUser]
    | some l => by_cases he : l.erase u = [] <;> simp [delUser, he]
  · exact h c'

theorem nodup_chan_discard (s : WSState) (u c : String) (h : ∀ c2, (chanSet s c2).Nodup) :
    ∀ c2, (chanSet (discardFromChannel s u c) c2).Nodup := by
  intro c2
  rw [chanSet_discard]
  split_ifs
  · exact List.Nodup.erase _ (h c)
  · exact h c2

theorem fold_discard_userSubs (chans : List String) (s : WSState) (u : String) :
    (chans.foldl (fun acc c => discardFromChannel acc u c) s).user_subscriptions =
      s.user_subscriptions := by
  induction chans generalizing s with
  | nil => rfl
  | cons c cs ih => rw [List.foldl_cons, ih, userSubs_discard]

theorem fold_discard_nodup (chans : List String) (s : WSState) (u : String)
    (h : ∀ c2, (chanSet s c2).Nodup) :
    ∀ c2, (chanSet (chans.foldl (fun acc c => discardFromChannel acc u c) s) c2).Nodup := by
  induction chans generalizing s with
  | nil => exact h
  | cons c cs ih => exact ih _ (nodup_chan_discard s u c h)

theorem fold_discard_noEmpty (chans : List String) (s : WSState) (u : String)
    (h : NoEmptyChan s) :
    NoEmptyChan (chans.foldl (fun acc c => discardFromChannel acc u c) s) := by
  induction chans generalizing s with
  | nil => exact h
  | cons c cs ih => exact ih _ (noEmpty_discard s u c h)

theorem mem_chanSet_fold_discard (chans : List String) (s : WSState) (u : String)
    (hnd : ∀ c2, (chanSet s c2).Nodup) (c' u' : String) :
    u' ∈ chanSet (chans.foldl (fun acc c => discardFromChannel acc u c) s) c' ↔
      u' ∈ chanSet s c' ∧ ¬(u' = u ∧ c' ∈ chans) := by
  induction chans generalizing s with
  | nil => simp
  | cons c cs ih =>
      rw [List.foldl_cons, ih _ (nodup_chan_discard s u c hnd),
        mem_chanSet_discard s u c c' u' (hnd c)]
      simp only [List.mem_cons]
      tauto

theorem disconnect_chanSub (s : WSState) (u : String) (c' : String) :
    (disconnect s u).channel_subscriptions c' =
      if (s.active_connections.lookup u).isSome = true then
        ((userSet s u).foldl (fun acc c => discardFromChannel acc u c) s).channel_subscriptions c'
      else s.channel_subscriptions c' := by
  unfold disconnect
  split_ifs with hact
  · cases hu : s.user_subscriptions u with
    | none => simp [userSet, hu]
    | some chans => simp [userSet, hu]
  · rfl

theorem disconnect_userSubs (s : WSState) (u : String) (u' : String) :
    (disconnect s u).user_subscriptions u' =
      if (s.active_connections.lookup u).isSome = true then
        (if u' = u then none else s.user_subscriptions u')
      else s.user_subscriptions u' := by
  unfold disconnect
  by_cases hact : (s.active_connections.lookup u).isSome = true
  · rw [if_pos hact, if_pos hact]
    cases hu : s.user_subscriptions u with
    | none => by_cases huu : u' = u <;> simp [huu, hu]
    | some chans => by_cases huu : u' = u <;> simp [huu, updMap, fold_discard_userSubs]
  · rw [if_neg hact, if_neg hact]

theorem disconnect_inv (s : WSState) (u : String) (h : FullInv s) : FullInv (disconnect s u) := by
  obtain ⟨hm, hne, hgc, hgu⟩ := h
  by_cases hact : (s.active_connections.lookup u).isSome = true
  case neg =>
    have heq : disconnect s u = s := by
      unfold disconnect
      rw [if_neg hact]
    rw [heq]
    exact ⟨hm, hne, hgc, hgu⟩
  case pos =>
    have hchanSub : ∀ c2, (disconnect s u).channel_subscriptions c2 =
        ((userSet s u).foldl (fun acc c => discardFromChannel acc u c) s).channel_subscriptions c2 := by
      intro c2
      rw [disconnect_chanSub, if_pos hact]
    have hchanSet : ∀ c2, chanSet (disconnect s u) c2 =
        chanSet ((userSet s u).foldl (fun acc c => discardFromChannel acc u c) s) c2 := by
      intro c2
      show ((disconnect s u).channel_subscriptions c2).getD [] = _
      rw [hchanSub c2]
      rfl
    have huserSet : ∀ u', userSet (disconnect s u) u' = if u' = u then [] else userSet s u' := by
      intro u'
      show ((disconnect s u).user_subscriptions u').getD [] = _
      rw [disconnect_userSubs, if_pos hact]
      by_cases huu : u' = u <;> simp [huu, userSet]
    refine ⟨?_, ?_, ?_, ?_⟩
    · intro c' u'
      have e1 : u' ∈ chanSet (disconnect s u) c' ↔
          u' ∈ chanSet s c' ∧ ¬(u' = u ∧ c' ∈ userSet s u) := by
        rw [hchanSet c']
        exact mem_chanSet_fold_discard (userSet s u) s u hgc c' u'
      rw [e1, huserSet u']
      by_cases huu : u' = u
      · subst huu
        rw [if_pos rfl]
        constructor
        · rintro ⟨hmem, hno⟩
          exact (hno ⟨rfl, (hm c' u').mp hmem⟩).elim
        · intro hmem
          exact absurd hmem (List.not_mem_nil c')
      · simp only [if_neg huu]
        constructor
        · rintro ⟨hmem, _⟩
          exact (hm c' u').mp hmem
        · intro hmem
          refine ⟨(hm c' u').mpr hmem, ?_⟩
          rintro ⟨h1, _⟩
          exact huu h1
    · intro c'
      rw [hchanSub c']
      exact fold_discard_noEmpty (userSet s u) s u hne c'
    · intro c'
      rw [hchanSet c']
      exact fold_discard_nodup (userSet s u) s u hgc c'
    · intro u'
      rw [huserSet u']
      by_cases huu : u' = u
      · simp [huu]
      · simp only [if_neg huu]
        exact hgu u'

theorem send_inv (s : WSState) (u : String) (ok : Bool) (h : FullInv s) :
    FullInv (send_to_user s u ok) := by
  unfold send_to_user
  split_ifs
  · exact h
  · exact disconnect_inv s u h
  · exact h

theorem insert_ne_nil (l : List String) (a : String) : l.insert a ≠ [] := by
  by_cases h : a ∈ l
  · rw [List.insert_of_mem h]
    exact List.ne_nil_of_mem h
  · rw [List.insert_of_not_mem h]
    exact List.cons_ne_nil a l

theorem chanSub_add (s : WSState) (u c c' : String) :
    (addToChannel s u c).channel_subscriptions c' =
      if c' = c then some ((chanSet s c).insert u) else s.channel_subscriptions c' := by
  simp only [addToChannel, updMap]

theorem userSubs_add (s : WSState) (u c u' : String) :
    (addToChannel s u c).user_subscriptions u' =
      if u' = u then some ((userSet s u).insert c) else s.user_subscriptions u' := by
  simp only [addToChannel, updMap, userSet]

theorem chanSet_add (s : WSState) (u c c' : String) :
    chanSet (addToChannel s u c) c' =
      if c' = c then (chanSet s c).insert u else chanSet s c' := by
  show ((addToChannel s u c).channel_subscriptions c').getD [] = _
  rw [chanSub_add]
  split_ifs <;> rfl

theorem userSet_add (s : WSState) (u c u' : String) :
    userSet (addToChannel s u c) u' =
      if u' = u then (userSet s u).insert c else userSet s u' := by
  show ((addToChannel s u c).user_subscriptions u').getD [] = _
  rw [userSubs_add]
  split_ifs <;> rfl

theorem mem_chanSet_add (s : WSState) (u c c' u2 : String) :
    u2 ∈ chanSet (addToChannel s u c) c' ↔
      u2 ∈ chanSet s c' ∨ (u2 = u ∧ c' = c) := by
  rw [chanSet_add]
  split_ifs with hcc
  · subst hcc
    rw [List.mem_insert_iff]
    tauto
  · tauto

theorem mem_userSet_add (s : WSState) (u c u' c2 : String) :
    c2 ∈ userSet (addToChannel s u c) u' ↔
      c2 ∈ userSet s u' ∨ (u' = u ∧ c2 = c) := by
  rw [userSet_add]
  split_ifs with huu
  · subst huu
    rw [List.mem_insert_iff]
    tauto
  · tauto

theorem noEmpty_add (s : WSState) (u c : String) (h : NoEmptyChan s) :
    NoEmptyChan (addToChannel s u c) := by
  intro c'
  rw [chanSub_add]
  split_ifs with hcc
  · intro hcontra
    exact insert_ne_nil (chanSet s c) u (Option.some.inj hcontra)
  · exact h c'

theorem nodup_chan_add (s : WSState) (u c : String) (h : ∀ c2, (chanSet s c2).Nodup) :
    ∀ c2, (chanSet (addToChannel s u c) c2).Nodup := by
  intro c2
  rw [chanSet_add]
  split_ifs
  · exact List.Nodup.insert (h c)
  · exact h c2

theorem nodup_user_add (s : WSState) (u c : String) (h : ∀ u2, (userSet s u2).Nodup) :
    ∀ u2, (userSet (addToChannel s u c) u2).Nodup := by
  intro u2
  rw [userSet_add]
  split_ifs
  · exact List.Nodup.insert (h u)
  · exact h u2

theorem mem_chanSet_fold_add (chans : List String) (s : WSState) (u : String) (c' u2 : String) :
    u2 ∈ chanSet (chans.foldl (fun acc c => addToChannel acc u c) s) c' ↔
      u2 ∈ chanSet s c' ∨ (u2 = u ∧ c' ∈ chans) := by
  induction chans generalizing s with
  | nil => simp
  | cons c cs ih =>
      rw [List.foldl_cons, ih, mem_chanSet_add]
      simp only [List.mem_cons]
      tauto

theorem mem_userSet_fold_add (chans : List String) (s : WSState) (u : String) (u' c2 : String) :
    c2 ∈ userSet (chans.foldl (fun acc c => addToChannel acc u c) s) u' ↔
      c2 ∈ userSet s u' ∨ (u' = u ∧ c2 ∈ chans) := by
  induction chans generalizing s with
  | nil => simp
  | cons c cs ih =>
      rw [List.foldl_cons, ih, mem_userSet_add]
      simp only [List.mem_cons]
      tauto

theorem fold_add_noEmpty (chans : List String) (s : WSState) (u : String) (h : NoEmptyChan s) :
    NoEmptyChan (chans.foldl (fun acc c => addToChannel acc u c) s) := by
  induction chans generalizing s with
  | nil => exact h
  | cons c cs ih => exact ih _ (noEmpty_add s u c h)

theorem fold_add_nodup_chan (chans : List String) (s : WSState) (u : String)
    (h : ∀ c2, (chanSet s c2).Nodup) :
    ∀ c2, (chanSet (chans.foldl (fun acc c => addToChannel acc u c) s) c2).Nodup := by
  induction chans generalizing s with
  | nil => exact h
  | cons c cs ih => exact ih _ (nodup_chan_add s u c h)

theorem fold_add_nodup_user (chans : List String) (s : WSState) (u : String)
    (h : ∀ u2, (userSet s u2).Nodup) :
    ∀ u2, (userSet (chans.foldl (fun acc c => addToChannel acc u c) s) u2).Nodup := by
  induction chans generalizing s with
  | nil => exact h
  | cons c cs ih => exact ih _ (nodup_user_add s u c h)

theorem fold_add_inv (chans : List String) (s : WSState) (u : String) (h : FullInv s) :
    FullInv (chans.foldl (fun acc c => addToChannel acc u c) s) := by
  obtain ⟨hm, hne, hgc, hgu⟩ := h
  refine ⟨?_, fold_add_noEmpty chans s u hne, fold_add_nodup_chan chans s u hgc,
    fold_add_nodup_user chans s u hgu⟩
  intro c' u'
  rw [mem_chanSet_fold_add, mem_userSet_fold_add]
  have := hm c' u'
  tauto

theorem ensure_inv (s : WSState) (u : String) (h : FullInv s) :
    FullInv (if (s.user_subscriptions u).isSome then s
             else { s with user_subscriptions := updMap s.user_subscriptions u (some []) }) := by
  split_ifs with hs
  · exact h
  · obtain ⟨hm, hne, hgc, hgu⟩ := h
    have hnone : s.user_subscriptions u = none := Option.not_isSome_iff_eq_none.mp hs
    have husr : ∀ u',
        userSet { s with user_subscriptions := updMap s.user_subscriptions u (some []) } u' =
          userSet s u' := by
      intro u'
      by_cases huu : u' = u
      · subst huu
        simp [userSet, updMap, hnone]
      · simp [userSet, updMap, huu]
    refine ⟨?_, hne, hgc, ?_⟩
    · intro c' u'
      rw [husr u']
      exact hm c' u'
    · intro u'
      rw [husr u']
      exact hgu u'

theorem subscribe_inv (s : WSState) (u : String) (chans : List String) (sendOk : Bool)
    (h : FullInv s) : FullInv (subscribe_to_channels s u chans sendOk) := by
  unfold subscribe_to_channels
  exact send_inv _ u sendOk (fold_add_inv chans _ u (ensure_inv s u h))

theorem chanSub_rm (s : WSState) (u c c' : String) :
    (removeChannelPair s u c).channel_subscriptions c' =
      (discardFromChannel s u c).channel_subscriptions c' := rfl

theorem userSubs_rm (s : WSState) (u c u' : String) :
    (removeChannelPair s u c).user_subscriptions u' =
      if u' = u then (s.user_subscriptions u).map (fun l => l.erase c)
      else s.user_subscriptions u' := by
  simp only [removeChannelPair, updMap, userSubs_discard]

theorem userSet_rm (s : WSState) (u c u' : String) :
    userSet (removeChannelPair s u c) u' =
      if u' = u then (userSet s u).erase c else userSet s u' := by
  show ((removeChannelPair s u c).user_subscriptions u').getD [] = _
  rw [userSubs_rm]
  by_cases huu : u' = u
  · subst huu
    cases ho : s.user_subscriptions u' <;> simp [ho, userSet]
  · simp [huu, userSet]

theorem mem_chanSet_rm (s : WSState) (u c c' u2 : String) (hnd : (chanSet s c).Nodup) :
    u2 ∈ chanSet (removeChannelPair s u c) c' ↔
      u2 ∈ chanSet s c' ∧ ¬(u2 = u ∧ c' = c) := by
  rw [show chanSet (removeChannelPair s u c) c' = chanSet (discardFromChannel s u c) c' from rfl]
  exact mem_chanSet_discard s u c c' u2 hnd

theorem mem_userSet_rm (s : WSState) (u c u' c2 : String) (hnd : (userSet s u).Nodup) :
    c2 ∈ userSet (removeChannelPair s u c) u' ↔
      c2 ∈ userSet s u' ∧ ¬(u' = u ∧ c2 = c) := by
  rw [userSet_rm]
  split_ifs with huu
  · subst huu
    rw [List.Nodup.mem_erase_iff hnd]
    tauto
  · tauto

theorem noEmpty_rm (s : WSState) (u c : String) (h : NoEmptyChan s) :
    NoEmptyChan (removeChannelPair s u c) := by
  intro c'
  rw [chanSub_rm]
  exact noEmpty_discard s u c h c'

theorem nodup_chan_rm (s : WSState) (u c : String) (h : ∀ c2, (chanSet s c2).Nodup) :
    ∀ c2, (chanSet (removeChannelPair s u c) c2).Nodup := by
  intro c2
  rw [show chanSet (removeChannelPair s u c) c2 = chanSet (discardFromChannel s u c) c2 from rfl]
  exact nodup_chan_discard s u c h c2

theorem nodup_user_rm (s : WSState) (u c : String) (h : ∀ u2, (userSet s u2).Nodup) :
    ∀ u2, (userSet (removeChannelPair s u c) u2).Nodup := by
  intro u2
  rw [userSet_rm]
  split_ifs
  · exact List.Nodup.erase c (h u)
  · exact h u2

theorem mem_chanSet_fold_rm (chans : List String) (s : WSState) (u : String)
    (hnd : ∀ c2, (chanSet s c2).Nodup) (c' u2 : String) :
    u2 ∈ chanSet (chans.foldl (fun acc c => removeChannelPair acc u c) s) c' ↔
      u2 ∈ chanSet s c' ∧ ¬(u2 = u ∧ c' ∈ chans) := by
  induction chans generalizing s with
  | nil => simp
  | cons c cs ih =>
      rw [List.foldl_cons, ih _ (nodup_chan_rm s u c hnd),
        mem_chanSet_rm s u c c' u2 (hnd c)]
      simp only [List.mem_cons]
      tauto

theorem mem_userSet_fold_rm (chans : List String) (s : WSState) (u : String)
    (hnd : ∀ u2, (userSet s u2).Nodup) (u' c2 : String) :
    c2 ∈ userSet (chans.foldl (fun acc c => removeChannelPair acc u c) s) u' ↔
      c2 ∈ userSet s u' ∧ ¬(u' = u ∧ c2 ∈ chans) := by
  induction chans generalizing s with
  | nil => simp
  | cons c cs ih =>
      rw [List.foldl_cons, ih _ (nodup_user_rm s u c hnd),
        mem_userSet_rm s u c u' c2 (hnd u)]
      simp only [List.mem_cons]
      tauto

theorem fold_rm_noEmpty (chans : List String) (s : WSState) (u : String) (h : NoEmptyChan s) :
    NoEmptyChan (chans.foldl (fun acc c => removeChannelPair acc u c) s) := by
  induction chans generalizing s with
  | nil => exact h
  | cons c cs ih => exact ih _ (noEmpty_rm s u c h)

theorem fold_rm_nodup_chan (chans : List String) (s : WSState) (u : String)
    (h : ∀ c2, (chanSet s c2).Nodup) :
    ∀ c2, (chanSet (chans.foldl (fun acc c => removeChannelPair acc u c) s) c2).Nodup := by
  induction chans generalizing s with
  | nil => exact h
  | cons c cs ih => exact ih _ (nodup_chan_rm s u c h)

theorem fold_rm_nodup_user (chans : List String) (s : WSState) (u : String)
    (h : ∀ u2, (userSet s u2).Nodup) :
    ∀ u2, (userSet (chans.foldl (fun acc c => removeChannelPair acc u c) s) u2).Nodup := by
  induction chans generalizing s with
  | nil => exact h
  | cons c cs ih => exact ih _ (nodup_user_rm s u c h)

theorem fold_rm_inv (chans : List String) (s : WSState) (u : String) (h : FullInv s) :
    FullInv (chans.foldl (fun acc c => removeChannelPair acc u c) s) := by
  obtain ⟨hm, hne, hgc, hgu⟩ := h
  refine ⟨?_, fold_rm_noEmpty chans s u hne, fold_rm_nodup_chan chans s u hgc,
    fold_rm_nodup_user chans s u hgu⟩
  intro c' u'
  rw [mem_chanSet_fold_rm chans s u hgc c' u', mem_userSet_fold_rm chans s u hgu u' c']
  have := hm c' u'
  tauto

theorem unsubscribe_inv (s : WSState) (u : String) (chans : List String) (sendOk : Bool)
    (h : FullInv s) : FullInv (unsubscribe_from_channels s u chans sendOk) := by
  unfold unsubscribe_from_channels
  split_ifs with hs
  · exact send_inv _ u sendOk (fold_rm_inv chans s u h)
  · exact h

theorem connect_inv (s : WSState) (ws : Nat) (u : String) (sendOk : Bool)
    (h : FullInv s) (hsafe : userSet s u = []) : FullInv (connect s ws u sendOk) := by
  unfold connect
  apply send_inv
  obtain ⟨hm, hne, hgc, hgu⟩ := h
  have husr : ∀ u',
      userSet { s with active_connections := alistInsert s.active_connections u ws,
                       user_subscriptions := updMap s.user_subscriptions u (some []) } u' =
        userSet s u' := by
    intro u'
    by_cases huu : u' = u
    · subst huu
      simp [userSet, updMap]
      exact hsafe
    · simp [userSet, updMap, huu]
  refine ⟨?_, hne, hgc, ?_⟩
  · intro c' u'
    rw [husr u']
    exact hm c' u'
  · intro u'
    rw [husr u']
    exact hgu u'

theorem applyOp_inv (s : WSState) (op : WSOp) (h : FullInv s) (hsafe : opSafe s op) :
    FullInv (applyOp s op) := by
  cases op with
  | connect ws u acceptOk sendOk =>
      cases acceptOk
      · exact h
      · exact connect_inv s ws u sendOk h hsafe
  | disconnect u => exact disconnect_inv s u h
  | subscribe u chans sendOk => exact subscribe_inv s u chans sendOk h
  | unsubscribe u chans sendOk => exact unsubscribe_inv s u chans sendOk h

theorem runOps_inv (ops : List WSOp) :
    ∀ s : WSState, FullInv s → SafeTrace s ops → FullInv (runOps s ops) := by
  induction ops with
  | nil => intro s h _; exact h
  | cons op rest ih =>
      intro s h htr
      exact ih (applyOp s op) (applyOp_inv s op h htr.1) htr.2

theorem initWS_inv : FullInv initWS := by
  refine ⟨?_, ?_, ?_, ?_⟩
  · intro c u
    simp [chanSet, userSet, initWS]
  · intro c
    simp [initWS]
  · intro c
    simp [chanSet, initWS]
  · intro u
    simp [userSet, initWS]

/-! ## Alert accumulation lemmas (towards C8) -/

theorem mem_foldl_append {α β : Type} (f : α → β) (l : List α) (init : List β) (x : β) :
    x ∈ l.foldl (fun as a => as ++ [f a]) init ↔ x ∈ init ∨ ∃ a, a ∈ l ∧ x = f a := by
  induction l generalizing init with
  | nil => simp
  | cons a as ih =>
      rw [List.foldl_cons, ih]
      simp only [List.mem_append, List.mem_singleton, List.mem_cons, List.not_mem_nil, or_false]
      constructor
      · rintro (⟨hx | hx⟩ | ⟨b, hb, hxb⟩)
        · exact Or.inl hx
        · exact Or.inr ⟨a, Or.inl rfl, hx⟩
        · exact Or.inr ⟨b, Or.inr hb, hxb⟩
      · rintro (hx | ⟨b, hb | hb, hxb⟩)
        · exact Or.inl (Or.inl hx)
        · subst hb
          exact Or.inl (Or.inr hxb)
        · exact Or.inr ⟨b, hb, hxb⟩

theorem mem_foldl_append_guard {α β : Type} (f : α → β) (p : α → Prop) [DecidablePred p]
    (l : List α) (init : List β) (x : β) :
    x ∈ l.foldl (fun as a => if p a then as ++ [f a] else as) init ↔
      x ∈ init ∨ ∃ a, a ∈ l ∧ p a ∧ x = f a := by
  induction l generalizing init with
  | nil => simp
  | cons a as ih =>
      rw [List.foldl_cons]
      by_cases hp : p a
      · rw [if_pos hp, ih]
        simp only [List.mem_append, List.mem_singleton, List.mem_cons, List.not_mem_nil, or_false]
        constructor
        · rintro (⟨hx | hx⟩ | ⟨b, hb, hpb, hxb⟩)
          · exact Or.inl hx
          · exact Or.inr ⟨a, Or.inl rfl, hp, hx⟩
          · exact Or.inr ⟨b, Or.inr hb, hpb, hxb⟩
        · rintro (hx | ⟨b, hb | hb, hpb, hxb⟩)
          · exact Or.inl (Or.inl hx)
          · subst hb
            exact Or.inl (Or.inr hxb)
          · exact Or.inr ⟨b, hb, hpb, hxb⟩
      · rw [if_neg hp, ih]
        simp only [List.mem_cons]
        constructor
        · rintro (hx | ⟨b, hb, hpb, hxb⟩)
          · exact Or.inl hx
          · exact Or.inr ⟨b, Or.inr hb, hpb, hxb⟩
        · rintro (hx | ⟨b, hb | hb, hpb, hxb⟩)
          · exact Or.inl hx
          · subst hb
            exact absurd hpb hp
          · exact Or.inr ⟨b, hb, hpb, hxb⟩

theorem countP_foldl_append {α β : Type} (f : α → β) (q : β → Bool) (l : List α)
    (init : List β) :
    (l.foldl (fun as a => as ++ [f a]) init).countP q =
      init.countP q + (l.filter (fun a => q (f a))).length := by
  induction l generalizing init with
  | nil => simp
  | cons a as ih =>
      rw [List.foldl_cons, ih]
      by_cases hq : q (f a) = true
      · simp [List.countP_append, List.filter_cons, hq, List.countP_singleton]
        omega
      · simp [List.countP_append, List.filter_cons, hq, List.countP_singleton]

theorem countP_foldl_append_guard {α β : Type} (f : α → β) (p : α → Prop) [DecidablePred p]
    (q : β → Bool) (l : List α) (init : List β) (hq : ∀ a, q (f a) = false) :
    (l.foldl (fun as a => if p a then as ++ [f a] else as) init).countP q =
      init.countP q := by
  induction l generalizing init with
  | nil => rfl
  | cons a as ih =>
      rw [List.foldl_cons]
      by_cases hp : p a
      · rw [if_pos hp, ih]
        simp [List.countP_append, List.countP_singleton, hq a]
      · rw [if_neg hp, ih]

/-! ## Claim theorems -/

/-- C1 counterexample: a reconnect breaks the mutual-inverse invariant.
After `connect u`, `subscribe u [c]`, `connect u`, the second connect
resets `user_subscriptions[u]` to the empty set without removing `u` from
`channel_subscriptions[c]`, so the pair `(c, u)` is present in the channel
index and absent from the user index. -/
theorem C1_counterexample :
    ¬ RegInv (runOps initWS
      [WSOp.connect 1 "u" true true, WSOp.subscribe "u" ["c"] true,
       WSOp.connect 2 "u" true true]) := by
  intro h
  exact absurd ((h.1 "c" "u").mp (by decide)) (by decide)

/-- C1 amended: for every sequence of connect / disconnect / subscribe /
unsubscribe operations in which each connect targets a user that currently
has no channel subscriptions, the two subscription indexes of the registry
remain mutual inverses and no channel is ever bound to an empty subscriber
set. -/
theorem C1_theorem (ops : List WSOp) (h : SafeTrace initWS ops) :
    RegInv (runOps initWS ops) :=
  ⟨(runOps_inv ops initWS initWS_inv h).1, (runOps_inv ops initWS initWS_inv h).2.1⟩

/-- C1 witness: the invariant after a concrete safe trace. -/
theorem C1_witness :
    RegInv (runOps initWS
      [WSOp.connect 1 "w" true true, WSOp.subscribe "w" ["c"] true, WSOp.disconnect "w"]) :=
  C1_theorem _ ⟨rfl, trivial, trivial, trivial⟩

/-- C2: the drain cycle of `_process_realtime_metrics` is not atomic.  With
one event in the buffer and one event appended between the `list(events)`
snapshot and `events.clear()`, the appended event ends up neither in the
aggregate snapshot nor in the buffer afterwards: it is lost, violating the
spec's drained-atomically invariant.  (The code iterates-then-clears across
an `await` instead of swapping the buffer.) -/
theorem C2_theorem :
    drain_cycle [TimedEvent.mk 0 (Event.mk "page_view" none)]
        [TimedEvent.mk 1 (Event.mk "click" none)] =
      ([TimedEvent.mk 0 (Event.mk "page_view" none)], []) ∧
    TimedEvent.mk 1 (Event.mk "click" none) ∉
      (drain_cycle [TimedEvent.mk 0 (Event.mk "page_view" none)]
        [TimedEvent.mk 1 (Event.mk "click" none)]).1 ∧
    TimedEvent.mk 1 (Event.mk "click" none) ∉
      (drain_cycle [TimedEvent.mk 0 (Event.mk "page_view" none)]
        [TimedEvent.mk 1 (Event.mk "click" none)]).2 := by
  refine ⟨rfl, ?_, ?_⟩ <;> decide

/-- C3 counterexample: when the cache write of step 2 raises
(`cacheOk = false`), `track_live_event` does not perform the later steps:
the event is not appended to the buffer, the active-session marker is not
updated, the tracker entry is not created, and the broadcast is not
attempted — the claim asserts all four still happen. -/
theorem C3_counterexample :
    (track_live_event initRT "u" (Event.mk "page_view" none) 5 false true true).1.metrics_buffer "u" = [] ∧
    (track_live_event initRT "u" (Event.mk "page_view" none) 5 false true true).1.active_sessions "u" = none ∧
    (track_live_event initRT "u" (Event.mk "page_view" none) 5 false true true).1.engagement_tracker "u" = none ∧
    (track_live_event initRT "u" (Event.mk "page_view" none) 5 false true true).2 = false := by
  refine ⟨rfl, rfl, rfl, rfl⟩

/-- C3 amended: a failure of the cache write does not raise to the caller,
but it does block steps 3-6: the call returns with the state unchanged and
no broadcast attempted.  Steps 3-6 all run exactly when the cache write
succeeds. -/
theorem C3_theorem :
    ∀ (s : RTState) (u : String) (ev : Event) (now : Nat) (engOk bcastOk : Bool),
    track_live_event s u ev now false engOk bcastOk = (s, false) ∧
    (track_live_event s u ev now true true bcastOk).1.metrics_buffer u =
      s.metrics_buffer u ++ [TimedEvent.mk now ev] ∧
    (track_live_event s u ev now true true bcastOk).1.active_sessions u = some now ∧
    (track_live_event s u ev now true true bcastOk).1.engagement_tracker u =
      some (add_duration (classify_event (ensure_tracker (s.engagement_tracker u) now) ev) ev) ∧
    (track_live_event s u ev now true true bcastOk).2 = true := by
  intro s u ev now engOk bcastOk
  refine ⟨rfl, ?_, ?_, ?_, rfl⟩ <;>
    simp [track_live_event, track_body, update_engagement_metrics]

/-- C9: `track_live_event` never propagates an exception: its whole body
runs under `try/except Exception`, so for every input and every combination
of collaborator failures the call returns normally with the mutations made
before the failure. -/
theorem C9_theorem :
    ∀ (s : RTState) (u : String) (ev : Event) (now : Nat) (cacheOk engOk bcastOk : Bool),
    track_live_event_call s u ev now cacheOk engOk bcastOk =
      Except.ok (track_live_event s u ev now cacheOk engOk bcastOk) := by
  intro s u ev now cacheOk engOk bcastOk
  rfl

/-- C10: engagement-tracker keys are always a subset of active-session
keys; the invariant is preserved by `track_live_event` under every failure
pattern (the marker is set before the tracker entry is touched) and by the
stale-session cleanup (which deletes the tracker entry whenever it deletes
the marker). -/
theorem C10_theorem :
    ∀ s : RTState, EngSubInv s →
    (∀ (u : String) (ev : Event) (now : Nat) (cacheOk engOk bcastOk : Bool),
      EngSubInv (track_live_event s u ev now cacheOk engOk bcastOk).1) ∧
    (∀ cutoff : Nat, EngSubInv (cleanup_stale_sessions s cutoff)) := by
  intro s hs
  constructor
  · intro u ev now cacheOk engOk bcastOk v hv
    cases cacheOk <;> cases engOk <;>
      simp [track_live_event, track_body, update_engagement_metrics,
        engagement_before_duration] at hv ⊢ <;>
      [skip; skip; skip; skip] <;> try exact hs v hv
    all_goals {
      by_cases hvu : v = u
      · simp [hvu]
      · simp [hvu] at hv ⊢
        exact hs v hv }
  · intro cutoff v hv
    simp only [cleanup_stale_sessions] at hv ⊢
    cases h : s.active_sessions v with
    | none =>
        rw [h] at hv
        exact absurd (hs v hv) (by simp [h])
    | some t =>
        rw [h] at hv
        by_cases ht : t < cutoff
        · simp [ht] at hv
        · simp [ht]

/-- C10 witness: the invariant preservation applied to the empty service
state. -/
theorem C10_witness :
    EngSubInv (track_live_event initRT "u" (Event.mk "page_view" none) 5 true true true).1 ∧
    EngSubInv (cleanup_stale_sessions initRT 0) :=
  ⟨(C10_theorem initRT (fun _ h => Bool.noConfusion h)).1 "u" (Event.mk "page_view" none) 5 true true true,
   (C10_theorem initRT (fun _ h => Bool.noConfusion h)).2 0⟩

/-- C5 counterexample: the aggregation loop does not use the tracker's
classification rule.  A `quiz_attempt` event is an interaction for the
engagement tracker but is not counted by `_aggregate_user_metrics`, whose
interaction list omits `quiz_attempt`. -/
theorem C5_counterexample :
    ¬ (∀ ev : Event, agg_is_interaction ev = true ↔ ev.action ∈ interactionActions) := by
  intro h
  have h1 := (h (Event.mk "quiz_attempt" none)).mpr (by decide)
  exact absurd h1 (by decide)

/-- C5 amended: the tracker increments its interaction counter exactly for
actions in `{click, scroll, video_play, quiz_attempt}`, while the hourly
aggregate counts an event as an interaction exactly for actions in that set
minus `quiz_attempt`; the page-view rules of the two agree everywhere. -/
theorem C5_theorem (tr : EngTracker) (ev : Event) :
    ((classify_event tr ev).interactions = tr.interactions + 1 ↔ ev.action ∈ interactionActions) ∧
    ((classify_event tr ev).page_views = tr.page_views + 1 ↔ agg_is_page_view ev = true) ∧
    (agg_is_interaction ev = true ↔ (ev.action ∈ interactionActions ∧ ev.action ≠ "quiz_attempt")) := by
  refine ⟨?_, ?_, ?_⟩
  · simp only [classify_event]
    split_ifs with h1 h2 <;> simp_all [interactionActions]
  · simp only [classify_event, agg_is_page_view]
    split_ifs with h1 h2 <;> simp_all [interactionActions]
  · simp only [agg_is_interaction, aggregateInteractionActions, interactionActions]
    constructor
    · intro h
      have h2 : ev.action = "click" ∨ ev.action = "scroll" ∨ ev.action = "video_play" := by
        simpa using h
      rcases h2 with h2 | h2 | h2 <;> rw [h2] <;> exact ⟨by decide, by decide⟩
    · rintro ⟨hmem, hne⟩
      have h2 : ev.action = "click" ∨ ev.action = "scroll" ∨ ev.action = "video_play" ∨
          ev.action = "quiz_attempt" := by simpa using hmem
      rcases h2 with h2 | h2 | h2 | h2 <;> simp_all

/-- C6 counterexample: the realtime timeframe parser has no week branch
(`"2w"` falls to the default of 1 hour instead of 336), and the analytics
one has no minute branch (`"90m"` falls to the default of 1 hour instead of
1.5), so neither parser implements all four claimed unit rules. -/
theorem C6_counterexample :
    parse_timeframe_rt "2w" = some 1 ∧ parse_timeframe_rt "2w" ≠ some 336 ∧
    parse_timeframe_svc "90m" = some 1 ∧ parse_timeframe_svc "90m" ≠ some (3 / 2) := by
  refine ⟨rfl, ?_, rfl, ?_⟩
  · intro h
    rw [show parse_timeframe_rt "2w" = some 1 from rfl] at h
    have h2 : (1 : Rat) = 336 := Option.some.inj h
    norm_num at h2
  · intro h
    rw [show parse_timeframe_svc "90m" = some 1 from rfl] at h
    have h2 : (1 : Rat) = 3 / 2 := Option.some.inj h
    norm_num at h2

/-- C6 amended: the realtime parser maps `"Nm"` to N/60, `"Nh"` to N,
`"Nd"` to N*24 and everything else (weeks included) to 1; the
analytics-service parser maps `"Nh"` to N, `"Nd"` to N*24, `"Nw"` to N*168
and everything else (minutes included) to 1.  No single parser implements
all four claimed unit rules. -/
theorem C6_theorem :
    parse_timeframe_rt "90m" = some (3 / 2) ∧ parse_timeframe_rt "2h" = some 2 ∧
    parse_timeframe_rt "3d" = some 72 ∧ parse_timeframe_rt "garbage" = some 1 ∧
    parse_timeframe_rt "2w" = some 1 ∧ parse_timeframe_svc "2h" = some 2 ∧
    parse_timeframe_svc "3d" = some 72 ∧ parse_timeframe_svc "2w" = some 336 ∧
    parse_timeframe_svc "90m" = some 1 ∧ parse_timeframe_svc "garbage" = some 1 := by
  refine ⟨?_, ?_, ?_, rfl, rfl, ?_, ?_, ?_, rfl, rfl⟩
  · rw [show parse_timeframe_rt "90m" = some (((90 : Nat) : Rat) / 60) from rfl]
    norm_num
  · rw [show parse_timeframe_rt "2h" = some (((2 : Nat) : Rat)) from rfl]
    norm_num
  · rw [show parse_timeframe_rt "3d" = some (((3 : Nat) : Rat) * 24) from rfl]
    norm_num
  · rw [show parse_timeframe_svc "2h" = some (((2 : Nat) : Rat)) from rfl]
    norm_num
  · rw [show parse_timeframe_svc "3d" = some (((3 : Nat) : Rat) * 24) from rfl]
    norm_num
  · rw [show parse_timeframe_svc "2w" = some (((2 : Nat) : Rat) * 24 * 7) from rfl]
    norm_num

/-- C7 counterexample: after three `page_view` events and two `click`
events of duration 5, the engagement rate returned by the summary is
exactly 200/3 = 66.666..., not the claimed 66.67. -/
theorem C7_counterexample :
    (get_student_engagement_summary
        (run_events initRT "u"
          [Event.mk "page_view" none, Event.mk "page_view" none, Event.mk "page_view" none,
           Event.mk "click" (some 5), Event.mk "click" (some 5)] 0) "u" 0).map
      (fun r => r.engagement_rate) = some (200 / 3) ∧
    (200 / 3 : Rat) ≠ 6667 / 100 := by
  constructor
  · have h : (run_events initRT "u"
        [Event.mk "page_view" none, Event.mk "page_view" none, Event.mk "page_view" none,
         Event.mk "click" (some 5), Event.mk "click" (some 5)] 0).engagement_tracker "u" =
        some (EngTracker.mk 0 3 2 10) := by decide
    simp [get_student_engagement_summary, h]
    norm_num
  · norm_num

/-- C7 amended: the five-event sequence yields page_views = 3,
interactions = 2, time_spent = 10 and engagement_rate =
interactions / max(page_views, 1) * 100 = 200/3 (which rounds to 66.67 but
is not equal to it), and a student without a tracker entry gets the empty
summary rather than an error. -/
theorem C7_theorem :
    get_student_engagement_summary
        (run_events initRT "u"
          [Event.mk "page_view" none, Event.mk "page_view" none, Event.mk "page_view" none,
           Event.mk "click" (some 5), Event.mk "click" (some 5)] 0) "u" 0 =
      some (EngagementSummary.mk 0 3 2 10 (200 / 3)) ∧
    ∀ (s : RTState) (u : String) (now : Nat), s.engagement_tracker u = none →
      get_student_engagement_summary s u now = none := by
  constructor
  · have h : (run_events initRT "u"
        [Event.mk "page_view" none, Event.mk "page_view" none, Event.mk "page_view" none,
         Event.mk "click" (some 5), Event.mk "click" (some 5)] 0).engagement_tracker "u" =
        some (EngTracker.mk 0 3 2 10) := by decide
    simp [get_student_engagement_summary, h]
    norm_num
  · intro s u now h
    simp [get_student_engagement_summary, h]

/-- C7 witness: the empty-summary clause applied to the fresh service
state. -/
theorem C7_witness : get_student_engagement_summary initRT "nobody" 0 = none :=
  C7_theorem.2 initRT "nobody" 0 rfl

/-- C4 counterexample: `connect` does raise to its caller: its first
statement `await websocket.accept()` is outside any `try/except`, so a
transport whose accept fails makes `connect` propagate the exception. -/
theorem C4_counterexample :
    applyRegistryOp initWS (RegistryOp.connect 1 "u" false true) = Except.error () := rfl

/-- C4 amended: every connection-registry operation except `connect`
returns normally for any state and any transport behaviour (send failures
are swallowed and converted into implicit disconnects), and `connect`
returns normally whenever its initial `accept` succeeds. -/
theorem C4_theorem :
    ∀ (s : WSState) (op : RegistryOp), acceptSucceeds op → (applyRegistryOp s op).isOk = true := by
  intro s op h
  cases op with
  | connect ws u acceptOk sendOk =>
      have h2 : acceptOk = true := h
      subst h2
      rfl
  | disconnect u => rfl
  | send u sendOk => rfl
  | bcastAll ok => rfl
  | bcastChannel c ok => rfl
  | subscribe u chans sendOk => rfl
  | unsubscribe u chans sendOk => rfl

/-- C4 witness: the no-raise guarantee applied to a `disconnect` on the
fresh registry. -/
theorem C4_witness : (applyRegistryOp initWS (RegistryOp.disconnect "gone")).isOk = true :=
  C4_theorem initWS (RegistryOp.disconnect "gone") True.intro

/-- C8: the alert evaluator is the concatenation of the two heuristics
with exactly the claimed constants.  An engagement-drop alert for user `u`
is emitted iff `u` appears in the 3-day activity window with fewer than 5
activities and `risk = min(days_since * 0.3 + (5 - count) * 0.2, 1)`
exceeds 0.6, with level `high` exactly when `risk > 0.8`; and exactly one
`medium` low-progress alert is emitted per progress record with
`progress < 20` started at least 7 days ago. -/
theorem C8_theorem (acts : List Activity) (progs : List StudentProgress) (now : Nat) :
    (∀ (u lvl : String) (r : Rat) (la cnt : Nat),
      Alert.engagement_drop u lvl r la cnt ∈ get_predictive_alerts acts progs now ↔
        (u ∈ ((recent_activities acts now).map (fun a => a.user_id)).dedup ∧
         cnt = user_activity_count (recent_activities acts now) u ∧
         cnt < 5 ∧
         la = user_last_activity (recent_activities acts now) u ∧
         r = risk_score now la cnt ∧
         r > 6 / 10 ∧
         lvl = (if r > 8 / 10 then "high" else "medium"))) ∧
    (∀ (u lp lvl : String) (pr : Int) (st : Nat),
      Alert.low_progress u lp lvl pr st ∈ get_predictive_alerts acts progs now ↔
        (lvl = "medium" ∧ StudentProgress.mk u lp pr st ∈ progs ∧ pr < 20 ∧
         st + 7 * 86400 ≤ now)) ∧
    (get_predictive_alerts acts progs now).countP Alert.isLowProgress =
      (qualifying_progress progs now).length := by
  have hmem : ∀ x : Alert, x ∈ get_predictive_alerts acts progs now ↔
      ((∃ u2, u2 ∈ declining_users (recent_activities acts now) ∧
          risk_score now (user_last_activity (recent_activities acts now) u2)
            (user_activity_count (recent_activities acts now) u2) > 6 / 10 ∧
          x = engagement_alert now (recent_activities acts now) u2) ∨
        (∃ p, p ∈ qualifying_progress progs now ∧ x = low_progress_alert p)) := by
    intro x
    unfold get_predictive_alerts
    rw [mem_foldl_append, mem_foldl_append_guard]
    simp only [List.not_mem_nil, false_or]
  refine ⟨?_, ?_, ?_⟩
  · intro u lvl r la cnt
    rw [hmem]
    constructor
    · rintro (⟨u2, hu2, hrisk, heq⟩ | ⟨p, hp, heq⟩)
      · simp only [engagement_alert, Alert.engagement_drop.injEq] at heq
        obtain ⟨h1, h2, h3, h4, h5⟩ := heq
        subst h1
        rw [declining_users] at hu2
        have hdec := List.mem_filter.mp hu2
        refine ⟨hdec.1, h5, ?_, h4, ?_, ?_, ?_⟩
        · rw [h5]
          exact of_decide_eq_true hdec.2
        · rw [h3, h4, h5]
        · rw [h3]
          exact hrisk
        · rw [h3]
          exact h2
      · simp [low_progress_alert] at heq
    · rintro ⟨hmemu, hcnt, hlt, hla, hr, hr6, hlvl⟩
      refine Or.inl ⟨u, ?_, ?_, ?_⟩
      · rw [declining_users]
        exact List.mem_filter.mpr ⟨hmemu, decide_eq_true (hcnt ▸ hlt)⟩
      · have hrs : risk_score now (user_last_activity (recent_activities acts now) u)
            (user_activity_count (recent_activities acts now) u) = r := by
          rw [hr, hla, hcnt]
        rw [hrs]
        exact hr6
      · have hrs : risk_score now (user_last_activity (recent_activities acts now) u)
            (user_activity_count (recent_activities acts now) u) = r := by
          rw [hr, hla, hcnt]
        simp [engagement_alert, hrs, hlvl, hla, hcnt]
  · intro u lp lvl pr st
    rw [hmem]
    constructor
    · rintro (⟨u2, _, _, heq⟩ | ⟨p, hp, heq⟩)
      · simp [engagement_alert] at heq
      · simp only [low_progress_alert, Alert.low_progress.injEq] at heq
        obtain ⟨h1, h2, h3, h4, h5⟩ := heq
        rw [qualifying_progress] at hp
        obtain ⟨hpmem, hcond⟩ := List.mem_filter.mp hp
        have hcond2 := of_decide_eq_true hcond
        refine ⟨h3, ?_, ?_, ?_⟩
        · have hmk : StudentProgress.mk u lp pr st = p := by
            cases p
            simp_all
          rw [hmk]
          exact hpmem
        · rw [h4]
          exact hcond2.1
        · rw [h5]
          exact hcond2.2
    · rintro ⟨hlvl, hpmem, hpr, hst⟩
      refine Or.inr ⟨StudentProgress.mk u lp pr st, ?_, ?_⟩
      · rw [qualifying_progress]
        exact List.mem_filter.mpr ⟨hpmem, decide_eq_true ⟨hpr, hst⟩⟩
      · simp [low_progress_alert, hlvl]
  · unfold get_predictive_alerts
    rw [countP_foldl_append,
      countP_foldl_append_guard _ _ _ _ _ (fun a => by simp [engagement_alert, Alert.isLowProgress])]
    simp [Alert.isLowProgress, low_progress_alert, List.countP_nil]

end LMS
